import Mathlib

/-!
Verification of the pgh-bustime client library (package `pghbustime`):
a shallow embedding of `pghbustime/interface.py`, `pghbustime/utils.py`
and `pghbustime/datatypes.py` in Lean 4, together with theorems about
the behaviour of the embedded operations.

Modelling conventions:
* Python strings are `String`; string algorithms are implemented over
  `List Char` so that every definition reduces in the kernel.
* Python `float(...)` conversion is modelled by exact decimal parsing
  into `PyFloat`; the decimal literals appearing in the claims are
  exactly representable.
* Raised Python exceptions are values of `PyErr`; a fallible operation
  returns `Except PyErr α`.
* The XML wire format is modelled by `XResp` (wrapper element containing
  record elements containing leaf fields), which covers every response
  shape the verified operations consume, and `xmltodict`-style parsing
  is `xmldictTop`.  The raw text of a response, on which the source
  performs substring checks, is recovered by `renderResp`.
-/

namespace Pghbustime

/-- Characters of a string, lower-cased (model of Python `str.lower`). -/
def lowerChars (s : String) : List Char := s.data.map Char.toLower

/-- Substring test on character lists (model of Python `needle in hay`). -/
def inSub (needle : List Char) : List Char → Bool
  | [] => needle.isEmpty
  | c :: rest => needle.isPrefixOf (c :: rest) || inSub needle rest

/-- Join character lists with a separator (model of Python `sep.join`). -/
def joinSep (sep : List Char) : List (List Char) → List Char
  | [] => []
  | [x] => x
  | x :: xs => x ++ sep ++ joinSep sep xs

/-- Python `sep.join(xs)` over `String`. -/
def pyJoin (sep : String) (xs : List String) : String :=
  ⟨joinSep sep.data (xs.map String.data)⟩

/-- Accumulate a decimal digit string into a natural number. -/
def digitsVal : List Char → Nat → Option Nat
  | [], acc => some acc
  | c :: r, acc =>
    if c.isDigit then digitsVal r (acc * 10 + (c.toNat - 48)) else none

/-- Parse a non-empty all-digit string as a natural number. -/
def parseNatChars (cs : List Char) : Option Nat :=
  if cs.isEmpty then none else digitsVal cs 0

/-- Exceptions raised by the embedded code. -/
inductive PyErr where
  | bustimeError (msg : String)
  | apiLimitExceeded (msg : String)
  | valueError (msg : String)
  | keyError (key : String)
  | typeError (msg : String)
  | attributeError (msg : String)
deriving DecidableEq

/-- Model of Python `int(s)` on a string: optional sign then digits. -/
def pyIntOfString (s : String) : Except PyErr Int :=
  match s.data with
  | '-' :: rest =>
    match parseNatChars rest with
    | some n => .ok (-(n : Int))
    | none => .error (.valueError ("invalid literal for int: " ++ s))
  | cs =>
    match parseNatChars cs with
    | some n => .ok (n : Int)
    | none => .error (.valueError ("invalid literal for int: " ++ s))

/-- An exact decimal number `mantissa / 10 ^ exponent`, the model of a
Python float produced by converting a decimal string (the library only
ever builds floats this way, and the claims compare such values). -/
structure PyFloat where
  mantissa : Int
  exponent : Nat
deriving DecidableEq

/-- Digits-and-dot decimal parsing for Python `float(s)`: an integer
part and an optional fractional part separated by a dot. -/
def pyFloatOfChars (cs : List Char) : Option PyFloat :=
  match List.splitOn '.' cs with
  | [ip] => (parseNatChars ip).map fun n => ⟨(n : Int), 0⟩
  | [ip, fp] =>
    match parseNatChars ip, parseNatChars fp with
    | some n, some f => some ⟨(n * 10 ^ fp.length + f : Int), fp.length⟩
    | _, _ => none
  | _ => none

/-- Model of Python `float(s)`: optional sign, then digits and dot. -/
def pyFloatOfString (s : String) : Except PyErr PyFloat :=
  match s.data with
  | '-' :: rest =>
    match pyFloatOfChars rest with
    | some q => .ok ⟨-q.mantissa, q.exponent⟩
    | none => .error (.valueError ("could not convert string to float: " ++ s))
  | cs =>
    match pyFloatOfChars cs with
    | some q => .ok q
    | none => .error (.valueError ("could not convert string to float: " ++ s))

/-- The tree of values produced by `xmltodict.parse`: `None`, strings,
dicts (ordered key/value pairs) and lists. -/
inductive JValue where
  | jnull
  | jstr (s : String)
  | jobj (kvs : List (String × JValue))
  | jarr (xs : List JValue)

/-- First value bound to a key in an ordered dict. -/
def jLookup (k : String) : List (String × JValue) → Option JValue
  | [] => none
  | (k', v) :: rest => if k' = k then some v else jLookup k rest

/-- Python subscripting `v[k]` with a string key: a dict lookup raising
`KeyError` on a missing key, and a `TypeError` on non-dict values. -/
def pyIndexStr (v : JValue) (k : String) : Except PyErr JValue :=
  match v with
  | .jobj kvs =>
    match jLookup k kvs with
    | some x => .ok x
    | none => .error (.keyError k)
  | .jstr _ => .error (.typeError "string indices must be integers")
  | .jarr _ => .error (.typeError "list indices must be integers or slices, not str")
  | .jnull => .error (.typeError "NoneType object is not subscriptable")

/-- Python `v.get(k)` on a dict value; raises `AttributeError` when the
receiver is not a dict. -/
def pyGet (v : JValue) (k : String) : Except PyErr (Option JValue) :=
  match v with
  | .jobj kvs => .ok (jLookup k kvs)
  | _ => .error (.attributeError "get")

/-- Python iteration over a value: lists yield elements, dicts yield
their keys, strings yield one-character strings, `None` is not iterable. -/
def pyIterate (v : JValue) : Except PyErr (List JValue) :=
  match v with
  | .jarr xs => .ok xs
  | .jobj kvs => .ok (kvs.map fun kv => .jstr kv.1)
  | .jstr s => .ok (s.data.map fun c => .jstr ⟨[c]⟩)
  | .jnull => .error (.typeError "NoneType object is not iterable")

/-- Python truthiness of a parsed value. -/
def jTruthy (v : JValue) : Bool :=
  match v with
  | .jnull => false
  | .jstr s => !s.data.isEmpty
  | .jobj kvs => !kvs.isEmpty
  | .jarr xs => !xs.isEmpty

/-- Read a leaf of the parsed tree as the string the wire carried;
non-string leaves raise the `TypeError` Python raises when such a value
reaches a string-only operation. -/
def asLeafStr (v : JValue) : Except PyErr String :=
  match v with
  | .jstr s => .ok s
  | _ => .error (.typeError "expected a text node")

/-- A naive (zone-free) date-time, as produced by `datetime.strptime`. -/
structure DateTime where
  year : Nat
  month : Nat
  day : Nat
  hour : Nat
  minute : Nat
  second : Nat
deriving DecidableEq

/-- Model of `datetime.strptime(s, BustimeAPI.STRPTIME)` for the format
string `%Y%m%d %H:%M:%S`: eight date digits, a space, and a colon-
separated six-digit time, with calendar-field range checks. -/
def strptimeBustime (s : String) : Except PyErr DateTime :=
  match List.splitOn ' ' s.data with
  | [d, t] =>
    if d.length = 8 then
      match parseNatChars (d.take 4), parseNatChars (d.drop 4 |>.take 2),
            parseNatChars (d.drop 6) with
      | some y, some mo, some da =>
        match List.splitOn ':' t with
        | [hh, mm, ss] =>
          if hh.length = 2 ∧ mm.length = 2 ∧ ss.length = 2 then
            match parseNatChars hh, parseNatChars mm, parseNatChars ss with
            | some h, some mi, some sec =>
              if 1 ≤ mo ∧ mo ≤ 12 ∧ 1 ≤ da ∧ da ≤ 31 ∧ h ≤ 23 ∧ mi ≤ 59 ∧ sec ≤ 59
              then .ok ⟨y, mo, da, h, mi, sec⟩
              else .error (.valueError ("time data " ++ s ++ " does not match format"))
            | _, _, _ => .error (.valueError ("time data " ++ s ++ " does not match format"))
          else .error (.valueError ("time data " ++ s ++ " does not match format"))
        | _ => .error (.valueError ("time data " ++ s ++ " does not match format"))
      | _, _, _ => .error (.valueError ("time data " ++ s ++ " does not match format"))
    else .error (.valueError ("time data " ++ s ++ " does not match format"))
  | _ => .error (.valueError ("time data " ++ s ++ " does not match format"))

/-- A timezone-aware date-time, as produced by `pytz`'s
`timezone(z).localize(dt)`: the wall-clock fields are unchanged and the
zone is attached. -/
structure LocalDT where
  naive : DateTime
  zone : String
deriving DecidableEq

/-- Model of `timezone("US/Eastern").localize(dt)` from `Bus.__init__`
and `Prediction.__init__`. -/
def localizeEastern (dt : DateTime) : LocalDT := ⟨dt, "US/Eastern"⟩

/-- Decimal digit character of `n % 10`. -/
def digitChar (n : Nat) : Char := Char.ofNat (48 + n % 10)

/-- Two-digit zero-padded decimal rendering. -/
def pad2 (n : Nat) : String := ⟨[digitChar (n / 10), digitChar n]⟩

/-- Four-digit zero-padded decimal rendering. -/
def pad4 (n : Nat) : String :=
  ⟨[digitChar (n / 1000), digitChar (n / 100), digitChar (n / 10), digitChar n]⟩

/-- The rendering `YYYY-MM-DD HH:MM:SS` of a naive date-time, as in
`str(datetime)`. -/
def renderDateTime (dt : DateTime) : String :=
  pad4 dt.year ++ "-" ++ pad2 dt.month ++ "-" ++ pad2 dt.day ++ " " ++
    pad2 dt.hour ++ ":" ++ pad2 dt.minute ++ ":" ++ pad2 dt.second

/-- Result of a Python `x or False` default: either a genuine boolean or
a truthy string kept as-is. -/
inductive PyDyn where
  | pbool (b : Bool)
  | pstr (s : String)
deriving DecidableEq

/-- Model of `bus.get('dly') or False` from `Bus.fromapi`: an absent,
`None` or empty field defaults to `False`, a truthy string is kept. -/
def dlyOrFalse (v : Option JValue) : PyDyn :=
  match v with
  | some (.jstr s) => if s.data.isEmpty then .pbool false else .pstr s
  | _ => .pbool false

/-- The `route` attribute of a `Bus`: `Bus.fromapi` stores the `rt`
designator string, while `Route.busses` overwrites it with the owning
`Route` object (identified here by its fields). -/
inductive RouteRef where
  | byDesignator (rt : String)
  | byObject (number name color : String)
deriving DecidableEq

/-- A constructed `Bus` object (`datatypes.Bus.__init__`). -/
structure BusObj where
  vid : String
  timeupdated : LocalDT
  location : PyFloat × PyFloat
  heading : Int
  patternid : String
  dist_in_trip : String
  route : RouteRef
  destination : String
  speed : String
  delayed : PyDyn
deriving DecidableEq

/-- Model of `Bus.fromapi` followed by `Bus.__init__`: field lookups and
conversions in source order (`KeyError` on a missing field, `ValueError`
on a bad number or timestamp, `TypeError` when the record is not a
dict, e.g. when a dict key string reaches it). -/
def Bus_fromapi (bus : JValue) : Except PyErr BusObj := do
  let vid ← pyIndexStr bus "vid" >>= asLeafStr
  let tmstmp ← pyIndexStr bus "tmstmp" >>= asLeafStr
  let timeupdated ← strptimeBustime tmstmp
  let lat ← pyIndexStr bus "lat" >>= asLeafStr >>= pyFloatOfString
  let lng ← pyIndexStr bus "lon" >>= asLeafStr >>= pyFloatOfString
  let heading ← pyIndexStr bus "hdg" >>= asLeafStr
  let pid ← pyIndexStr bus "pid" >>= asLeafStr
  let intotrip ← pyIndexStr bus "pdist" >>= asLeafStr
  let route ← pyIndexStr bus "rt" >>= asLeafStr
  let destination ← pyIndexStr bus "des" >>= asLeafStr
  let speed ← pyIndexStr bus "spd" >>= asLeafStr
  let dly ← pyGet bus "dly"
  let headingInt ← pyIntOfString heading
  return { vid := vid
           timeupdated := localizeEastern timeupdated
           location := (lat, lng)
           heading := headingInt
           patternid := pid
           dist_in_trip := intotrip
           route := .byDesignator route
           destination := destination
           speed := speed
           delayed := dlyOrFalse dly }

/-- The denormalized predicted-stop triple (`Prediction.pstop`). -/
structure PStop where
  sid : String
  name : String
  feet_to : Int
deriving DecidableEq

/-- A constructed `Prediction` object (`datatypes.Prediction.__init__`). -/
structure PredObj where
  eta : LocalDT
  is_arrival : Bool
  delayed : Bool
  generated : LocalDT
  pstop : PStop
  route : String
  destination : String
  direction : String
  vid : String
deriving DecidableEq

/-- Model of `Prediction.fromapi` followed by `Prediction.__init__`:
lookups and conversions in source order. -/
def Prediction_fromapi (apiresponse : JValue) : Except PyErr PredObj := do
  let tmstmp ← pyIndexStr apiresponse "tmstmp" >>= asLeafStr
  let generated_time ← strptimeBustime tmstmp
  let typ ← pyIndexStr apiresponse "typ"
  let arrival := match typ with
    | .jstr s => s = "A"
    | _ => false
  let bus ← pyIndexStr apiresponse "vid" >>= asLeafStr
  let stpid ← pyIndexStr apiresponse "stpid" >>= asLeafStr
  let stpnm ← pyIndexStr apiresponse "stpnm" >>= asLeafStr
  let dstp ← pyIndexStr apiresponse "dstp" >>= asLeafStr
  let dstpInt ← pyIntOfString dstp
  let route ← pyIndexStr apiresponse "rt" >>= asLeafStr
  let direction ← pyIndexStr apiresponse "rtdir" >>= asLeafStr
  let destination ← pyIndexStr apiresponse "des" >>= asLeafStr
  let prdtm ← pyIndexStr apiresponse "prdtm" >>= asLeafStr
  let et ← strptimeBustime prdtm
  let dly ← pyGet apiresponse "dly"
  return { eta := localizeEastern et
           is_arrival := arrival
           delayed := jTruthy (dly.getD .jnull)
           generated := localizeEastern generated_time
           pstop := ⟨stpid, stpnm, dstpInt⟩
           route := route
           destination := destination
           direction := direction
           vid := bus }

/-- Consuming the generator `Route.busses`, given the value of the
response's `vehicle` field: an explicit `type(...) is list` test selects
between iterating the list and constructing from the single bare
record; each bus's `route` attribute is overwritten with the owning
route object. -/
def Route_busses_consume (number name color : String) (apiresp : JValue) :
    Except PyErr (List BusObj) :=
  match apiresp with
  | .jarr busdicts =>
    busdicts.mapM fun busdict => do
      let busobj ← Bus_fromapi busdict
      return { busobj with route := .byObject number name color }
  | _ => do
    let busobj ← Bus_fromapi apiresp
    return [{ busobj with route := .byObject number name color }]

/-- Consuming the generator `Bus.predictions`, given the value of the
response's `prd` field: the field is iterated directly (no list test),
so a bare record is iterated as a dict, yielding its key strings to
`Prediction.fromapi`. -/
def Bus_predictions_consume (prdField : JValue) : Except PyErr (List PredObj) := do
  let items ← pyIterate prdField
  items.mapM Prediction_fromapi

/-- Consuming the generator `Stop.predictions`, given the value of the
response's `prd` field: a list is iterated with each construction
wrapped in `try/except: continue`, a bare record is constructed
directly.  (The `_stopobj` back-reference the source attaches is
modelled separately, by `Prediction_stop`.) -/
def Stop_predictions_consume (apiresponse : JValue) : Except PyErr (List PredObj) :=
  match apiresponse with
  | .jarr xs => .ok (xs.filterMap fun x => (Prediction_fromapi x).toOption)
  | _ => do
    let pobj ← Prediction_fromapi apiresponse
    return [pobj]

/-- The refetch-and-reconstruct pipeline inside `Bus.update`:
`self.api.vehicles(vid=self.vid)['vehicle']` followed by
`Bus.fromapi`.  The argument is the (possibly failed) API response. -/
def Bus_refetch (fetchResp : Except PyErr JValue) : Except PyErr BusObj := do
  let resp ← fetchResp
  let vehicle ← pyIndexStr resp "vehicle"
  Bus_fromapi vehicle

/-- Model of `Bus.update`: the only mutation of `self` is the single
`self.__dict__ = newbus.__dict__` assignment executed after the refetch
pipeline has completed; the returned pair is (raised exception or unit,
the object's state after the call). -/
def Bus_update (self : BusObj) (fetchResp : Except PyErr JValue) :
    Except PyErr Unit × BusObj :=
  match Bus_refetch fetchResp with
  | .error e => (.error e, self)
  | .ok newbus => (.ok (), newbus)

/-- A constructed `Route` object (`datatypes.Route.__init__`), without
its per-instance stop cache. -/
structure RouteObj where
  number : String
  name : String
  color : String
deriving DecidableEq

/-- Model of `Route.fromapi`. -/
def Route_fromapi (apiresponse : JValue) : Except PyErr RouteObj := do
  let rt ← pyIndexStr apiresponse "rt" >>= asLeafStr
  let rtnm ← pyIndexStr apiresponse "rtnm" >>= asLeafStr
  let rtclr ← pyIndexStr apiresponse "rtclr" >>= asLeafStr
  return ⟨rt, rtnm, rtclr⟩

/-- Insert-or-overwrite for the string-keyed route registry dict. -/
def dictInsert (m : List (String × RouteObj)) (k : String) (r : RouteObj) :
    List (String × RouteObj) :=
  match m with
  | [] => [(k, r)]
  | (k', r') :: rest =>
    if k' = k then (k, r) :: rest else (k', r') :: dictInsert rest k r

/-- First value bound to a key in the route registry. -/
def regLookup (k : String) : List (String × RouteObj) → Option RouteObj
  | [] => none
  | (k', v) :: rest => if k' = k then some v else regLookup k rest

/-- Model of `Route.update_list`: build a fresh designator-indexed dict
from the fetched route records. -/
def Route_update_list (rtdicts : List JValue) :
    Except PyErr (List (String × RouteObj)) :=
  rtdicts.foldlM (fun allroutes rtdict => do
    let rtobject ← Route_fromapi rtdict
    return dictInsert allroutes rtobject.number rtobject) []

/-- Result of one `Route.get` call: the returned route (or raised
exception), the registry afterwards, and how many whole-list fetches
(`api.routes()` calls) the call issued. -/
structure RouteGetRes where
  result : Except PyErr RouteObj
  registry : List (String × RouteObj)
  fetches : Nat

/-- Model of `Route.get`: when the class-level registry dict is falsy
(empty) the whole route list is fetched and `update_list` repopulates
it (a failure there leaves the registry unassigned); then the
designator is looked up, raising `KeyError` when absent.  `apiRoutes`
is the list held under the fetched response's `route` field. -/
def Route_get (registry : List (String × RouteObj)) (apiRoutes : List JValue)
    (rt : String) : RouteGetRes :=
  if registry.isEmpty then
    match Route_update_list apiRoutes with
    | .error e => ⟨.error e, registry, 1⟩
    | .ok newreg =>
      match regLookup rt newreg with
      | some r => ⟨.ok r, newreg, 1⟩
      | none => ⟨.error (.keyError rt), newreg, 1⟩
  else
    match regLookup rt registry with
    | some r => ⟨.ok r, registry, 0⟩
    | none => ⟨.error (.keyError rt), registry, 0⟩

/-- A constructed `Stop` object (`datatypes.Stop.__init__`): `alloc` is
a fresh allocation tag standing for Python object identity, so that two
`Stop` values are the identical instance exactly when they are equal
(same tag). -/
structure StopObj where
  alloc : Nat
  sid : String
  name : String
deriving DecidableEq

/-- A live `Prediction` instance for the relationship-caching model:
the constructed fields together with the optional `_stopobj` instance
attribute. -/
structure PredInst where
  core : PredObj
  stopobj : Option StopObj

/-- Result of one access to the `Prediction.stop` property: the
returned stop, the instance afterwards, the next free allocation tag,
and the number of API requests issued so far.  `requests` counts calls
into `self.api`; constructing a bare `Stop` performs none. -/
structure StopAccess where
  stop : StopObj
  inst : PredInst
  nextAlloc : Nat
  requests : Nat

/-- Model of the `Prediction.stop` property: when `_stopobj` is absent a
bare `Stop` is constructed from the denormalized triple and cached on
the instance; otherwise the cached instance is returned.  No branch
touches `self.api`, so `requests` is never incremented. -/
def Prediction_stop (p : PredInst) (nextAlloc requests : Nat) : StopAccess :=
  match p.stopobj with
  | some s => ⟨s, p, nextAlloc, requests⟩
  | none =>
    let s : StopObj := ⟨nextAlloc, p.core.pstop.sid, p.core.pstop.name⟩
    ⟨s, { p with stopobj := some s }, nextAlloc + 1, requests⟩

/-- An affected-service descriptor (`Bulletin.affected_service`). -/
structure AffectedService where
  typ : String
  aid : Option String
  name : Option String
deriving DecidableEq

/-- A constructed `Bulletin` object (`datatypes.Bulletin.__init__`). -/
structure BulletinObj where
  bid : String
  subject : Option String
  body : String
  priority : String
  for_stops : List AffectedService
  for_routes : List AffectedService
deriving DecidableEq

/-- Optional leaf text of an optional field value. -/
def optLeafStr (v : Option JValue) : Option String :=
  match v with
  | some (.jstr s) => some s
  | _ => none

/-- Python `k in v` membership: key membership for dicts, substring for
strings, element equality for lists of leaves. -/
def pyInKey (k : String) (v : JValue) : Except PyErr Bool :=
  match v with
  | .jobj kvs => .ok ((jLookup k kvs).isSome)
  | .jstr s => .ok (inSub k.data s.data)
  | .jarr xs => .ok (xs.any fun x => match x with
    | .jstr s => s = k
    | _ => false)
  | .jnull => .error (.typeError "argument of type NoneType is not iterable")

/-- The loop body of `Bulletin.fromapi` for one record `resp`: the id
and priority always collapse to the `n/a` sentinel (`"n/a" or ...` is
always truthy), the body concatenates `dtl` and `brf` (a `TypeError`
when either is absent, as `None + str` raises), and the `srvc` field
contributes at most one stop entry and one route entry. -/
def bulletinOfRecord (resp : JValue) : Except PyErr BulletinObj := do
  let sbj ← pyGet resp "sbj"
  let dtl ← pyGet resp "dtl"
  let brf ← pyGet resp "brf"
  let text ← match optLeafStr dtl, optLeafStr brf with
    | some a, some b => Except.ok (a ++ "\n" ++ b)
    | _, _ => Except.error (.typeError "unsupported operand type for +")
  let svc ← pyGet resp "srvc"
  let svcVal := svc.getD .jnull
  if jTruthy svcVal then do
    let hasStop1 ← pyInKey "stpid" svcVal
    let hasStop2 ← pyInKey "stpnm" svcVal
    let hasRt1 ← pyInKey "rt" svcVal
    let hasRt2 ← pyInKey "rtdir" svcVal
    let stpid ← pyGet svcVal "stpid"
    let stpnm ← pyGet svcVal "stpnm"
    let rt ← pyGet svcVal "rt"
    let rtdir ← pyGet svcVal "rtdir"
    let for_stops := if hasStop1 || hasStop2 then
      [⟨"stop", optLeafStr stpid, optLeafStr stpnm⟩] else []
    let for_routes := if hasRt1 || hasRt2 then
      [⟨"route", optLeafStr rt, optLeafStr rtdir⟩] else []
    return ⟨"n/a", optLeafStr sbj, text, "n/a", for_stops, for_routes⟩
  else
    return ⟨"n/a", optLeafStr sbj, text, "n/a", [], []⟩

/-- Consuming the generator `Bulletin.fromapi(apiresponse)`: the body
first subscripts its argument with `sb` and iterates that, building one
bulletin per item. -/
def Bulletin_fromapi_consume (apiresponse : JValue) :
    Except PyErr (List BulletinObj) := do
  let sb ← pyIndexStr apiresponse "sb"
  let items ← pyIterate sb
  items.mapM bulletinOfRecord

/-- The generator `Route.bulletins`, given the parsed bulletins
response: when the response is truthy it yields one *unconsumed*
`Bulletin.fromapi(b)` generator per element of the response's `sb`
field; the values returned here are the arguments those inner
generators hold. -/
def Route_bulletins (apiresponse : JValue) : Except PyErr (List JValue) :=
  if jTruthy apiresponse then do
    let sb ← pyIndexStr apiresponse "sb"
    pyIterate sb
  else
    .ok []

/-- The generator `Stop.bulletins`: its body is identical to
`Route.bulletins` apart from the query parameter used for the fetch. -/
def Stop_bulletins (apiresponse : JValue) : Except PyErr (List JValue) :=
  if jTruthy apiresponse then do
    let sb ← pyIndexStr apiresponse "sb"
    pyIterate sb
  else
    .ok []

/-- A value passed as a query parameter: `None`, a string, or a list of
strings (the multi-ID form). -/
inductive PyVal where
  | pynone
  | pystr (s : String)
  | pylist (xs : List String)
deriving DecidableEq

/-- Python truthiness of a parameter value. -/
def pyTruthy (v : PyVal) : Bool :=
  match v with
  | .pynone => false
  | .pystr s => !s.data.isEmpty
  | .pylist xs => !xs.isEmpty

/-- Model of `utils.listlike`: iterable and not a string — here, exactly
the list form (`None` has no `__iter__`). -/
def listlike (v : PyVal) : Bool :=
  match v with
  | .pylist _ => true
  | _ => false

/-- The single-quote character, used by Python `repr` of strings. -/
def squote : Char := Char.ofNat 39

/-- Python `repr` of a string (single-quoted; the claims involve no
strings needing escapes). -/
def pyReprStr (s : String) : String := ⟨squote :: s.data ++ [squote]⟩

/-- Python `str` of a parameter value; a list formats as its `repr`,
e.g. a bracketed, comma-separated sequence of quoted elements. -/
def pyStr (v : PyVal) : String :=
  match v with
  | .pynone => "None"
  | .pystr s => s
  | .pylist xs => "[" ++ pyJoin ", " (xs.map pyReprStr) ++ "]"

/-- Model of `utils.queryjoin` as called by `BustimeAPI.endpoint`: each
entry with a value other than `None` serializes as `key=value` with the
value's `str` form, and the entries are ampersand-joined. -/
def queryjoin (argdict : List (String × PyVal)) : String :=
  pyJoin "&" (argdict.filterMap fun kv =>
    if kv.2 = .pynone then none else some (kv.1 ++ "=" ++ pyStr kv.2))

/-- Model of `BustimeAPI.endpoint`: base URL, then the key, the
instance defaults (in the iteration order the repository's own test
observes) and the call-specific parameters. -/
def endpoint (base key locale tmres : String)
    (argdict : List (String × PyVal)) : String :=
  let instanceargs := queryjoin [("key", .pystr key)] ++ "&" ++
    queryjoin [("tmres", .pystr tmres), ("localestring", .pystr locale)]
  let querystring :=
    if argdict.isEmpty then instanceargs
    else instanceargs ++ "&" ++ queryjoin argdict
  base ++ "?" ++ querystring

/-- The `VEHICLES` endpoint base URL. -/
def vehiclesBase : String :=
  "http://realtime.portauthority.org/bustime/api/v1/getvehicles"

/-- The `R_GEO` endpoint base URL. -/
def rGeoBase : String :=
  "http://realtime.portauthority.org/bustime/api/v1/getpatterns"

/-- The `PREDICTION` endpoint base URL. -/
def predictionBase : String :=
  "http://realtime.portauthority.org/bustime/api/v1/getpredictions"

/-- Comma-join of a list parameter (`",".join(map(str, v))`). -/
def commaJoin (xs : List String) : String := pyJoin "," xs

/-- The elements of a list-valued parameter (empty for other forms;
used only under a `listlike` guard). -/
def PyVal.list : PyVal → List String
  | .pylist xs => xs
  | _ => []

/-- Model of `BustimeAPI.vehicles` up to the network call: local
validation, list flattening, and the request URL that would be fetched. -/
def vehicles (key locale tmres : String) (vid rt : PyVal) :
    Except PyErr String :=
  if pyTruthy vid && pyTruthy rt then
    .error (.valueError "The `vid` and `route` parameters cannot be specified simultaneously.")
  else if !(pyTruthy vid || pyTruthy rt) then
    .error (.valueError "You must specify either the `vid` or `rt` parameter.")
  else
    let rt := if listlike rt then .pystr (commaJoin rt.list) else rt
    let vid := if listlike vid then .pystr (commaJoin vid.list) else vid
    .ok (endpoint vehiclesBase key locale tmres [("vid", vid), ("rt", rt)])

/-- Model of `BustimeAPI.geopatterns` up to the network call.  The
source's second check builds `ValueError("You must specify either the
`rt` or `pid` parameter.")` but does not raise it (the `raise` keyword
is missing), so the branch has no effect and the request URL is built
anyway; only the mutually-exclusive check raises.  Only `pid` is
flattened when list-like. -/
def geopatterns (key locale tmres : String) (rt pid : PyVal) :
    Except PyErr String :=
  if pyTruthy rt && pyTruthy pid then
    .error (.valueError "The `rt` and `pid` parameters cannot be specified simultaneously.")
  else
    let pid := if listlike pid then .pystr (commaJoin pid.list) else pid
    .ok (endpoint rGeoBase key locale tmres [("rt", rt), ("pid", pid)])

/-- Model of `BustimeAPI.predictions` up to the network call: local
validation, flattening, and the guarded dispatch that silently returns
`None` (no request) when only `rt` is supplied. -/
def predictions (key locale tmres : String)
    (stpid rt vid maxpredictions : PyVal) : Except PyErr (Option String) :=
  if (pyTruthy stpid && pyTruthy vid) || (pyTruthy rt && pyTruthy vid) then
    .error (.valueError "These parameters cannot be specified simultaneously.")
  else if !(pyTruthy stpid || pyTruthy rt || pyTruthy vid) then
    .error (.valueError "You must specify a parameter.")
  else
    let stpid := if listlike stpid then .pystr (commaJoin stpid.list) else stpid
    let rt := if listlike rt then .pystr (commaJoin rt.list) else rt
    let vid := if listlike vid then .pystr (commaJoin vid.list) else vid
    if pyTruthy stpid || (pyTruthy rt && pyTruthy stpid) || pyTruthy vid then
      .ok (some (endpoint predictionBase key locale tmres
        [("rt", rt), ("stpid", stpid), ("vid", vid), ("top", maxpredictions)]))
    else
      .ok none

/-- The spec-side serialization rule for call parameters, stated from
the spec's words for comparison with the code path: "the Query Builder
omits any parameter whose value is absent, and flattens any list-like
parameter to a comma-joined string". -/
def specSerialize (args : List (String × PyVal)) : String :=
  pyJoin "&" (args.filterMap fun kv =>
    match kv.2 with
    | .pynone => none
    | .pystr s => some (kv.1 ++ "=" ++ s)
    | .pylist xs => some (kv.1 ++ "=" ++ commaJoin xs))

/-- A leaf XML element `<tag>txt</tag>`. -/
structure XLeaf where
  tag : String
  txt : String
deriving DecidableEq

/-- A record XML element: a tag containing leaf fields. -/
structure XRec where
  tag : String
  fields : List XLeaf
deriving DecidableEq

/-- A raw API response: a wrapper element containing record elements.
This covers every response shape the verified operations consume. -/
structure XResp where
  roottag : String
  recs : List XRec
deriving DecidableEq

/-- Render one element with an already-rendered body. -/
def renderElem (tag : String) (body : List Char) : List Char :=
  '<' :: tag.data ++ '>' :: body ++ '<' :: '/' :: tag.data ++ ['>']

/-- Raw text of a leaf element. -/
def renderLeaf (l : XLeaf) : List Char := renderElem l.tag l.txt.data

/-- Raw text of a record element. -/
def renderRec (r : XRec) : List Char :=
  renderElem r.tag (r.fields.map renderLeaf).flatten

/-- Raw text of a whole response, on which the source performs its
substring checks. -/
def renderResp (resp : XResp) : List Char :=
  renderElem resp.roottag (resp.recs.map renderRec).flatten

/-- Keys in order of first occurrence. -/
def dedupFirst (seen : List String) : List String → List String
  | [] => []
  | x :: xs =>
    if seen.contains x then dedupFirst seen xs else x :: dedupFirst (x :: seen) xs

/-- The `xmltodict` sibling-grouping rule: keys appear in order of
first occurrence; a repeated tag collects its values into a list, a
unique tag maps to its single value. -/
def groupPairs (ps : List (String × JValue)) : List (String × JValue) :=
  (dedupFirst [] (ps.map Prod.fst)).map fun k =>
    (k, match ps.filterMap (fun p => if p.1 = k then some p.2 else none) with
        | [v] => v
        | vs => .jarr vs)

/-- `xmltodict` value of a leaf element: `None` when empty, else its
text. -/
def leafVal (l : XLeaf) : JValue :=
  if l.txt = "" then .jnull else .jstr l.txt

/-- `xmltodict` value of a record element. -/
def recVal (r : XRec) : JValue :=
  if r.fields.isEmpty then .jnull
  else .jobj (groupPairs (r.fields.map fun l => (l.tag, leafVal l)))

/-- `xmltodict` value sitting under the wrapper element. -/
def respInner (resp : XResp) : JValue :=
  if resp.recs.isEmpty then .jnull
  else .jobj (groupPairs (resp.recs.map fun r => (r.tag, recVal r)))

/-- Model of `xmltodict.parse` on a raw response: a one-key dict from
the wrapper tag to the grouped children. -/
def xmldictTop (resp : XResp) : JValue :=
  .jobj [(resp.roottag, respInner resp)]

/-- `BustimeAPI.RESPONSE_TOKEN`. -/
def RESPONSE_TOKEN : String := "bustime-response"

/-- `BustimeAPI.ERROR_TOKEN`. -/
def ERROR_TOKEN : String := "error"

/-- The rate-limit phrase `errorhandle` looks for. -/
def tlPhrase : String := "transaction limit"

/-- The lazy `any('transaction limit' in msg.lower() for msg in
errors.values())` check: stops at the first match; `.lower()` on a
non-string value raises `AttributeError`. -/
def overlimitCheck : List (String × JValue) → Except PyErr Bool
  | [] => .ok false
  | (_, v) :: rest =>
    match v with
    | .jstr s =>
      if inSub tlPhrase.data (lowerChars s) then .ok true else overlimitCheck rest
    | _ => .error (.attributeError "lower")

/-- Python `str` of an error-dict value as used in the concatenated
message (values of deeper nesting do not occur in the modelled wire
format and are abbreviated). -/
def pyFormatLeaf : JValue → String
  | .jstr s => s
  | .jnull => "None"
  | .jarr xs => "[" ++ pyJoin ", " (xs.map fun x => match x with
      | .jstr s => pyReprStr s
      | .jnull => "None"
      | _ => "...") ++ "]"
  | .jobj _ => "OrderedDict(...)"

/-- The `" ".join("{0}: {1}".format(k, v) ...)` message for one error
record. -/
def fmtItems (kvs : List (String × JValue)) : String :=
  pyJoin " " (kvs.map fun kv => kv.1 ++ ": " ++ pyFormatLeaf kv.2)

/-- Format one element of a multi-error list; a non-dict element makes
`.items()` raise. -/
def fmtErrRec : JValue → Except PyErr String
  | .jobj kvs => .ok (fmtItems kvs)
  | _ => .error (.attributeError "items")

/-- Model of `BustimeAPI.errorhandle` in the `json` format: re-parse
the raw response, subscript down to the `error` child(ren), and decide
which exception to raise.  The rate-limit check runs only in the
"single error" branch: a list of more than one error goes straight to
the concatenated generic message. -/
def errorhandle (resp : XResp) : PyErr :=
  match pyIndexStr (xmldictTop resp) RESPONSE_TOKEN with
  | .error e => e
  | .ok inner =>
    match pyIndexStr inner ERROR_TOKEN with
    | .error e => e
    | .ok errors =>
      match errors with
      | .jarr xs =>
        if xs.length > 1 then
          match xs.mapM fmtErrRec with
          | .error e => e
          | .ok msgs => .bustimeError ("API returned: " ++ pyJoin ", " msgs)
        else
          .attributeError "values"
      | .jobj kvs =>
        match overlimitCheck kvs with
        | .error e => e
        | .ok true =>
          .apiLimitExceeded "This API key has used up its daily quota of calls."
        | .ok false => .bustimeError ("API returned: " ++ fmtItems kvs)
      | _ => .attributeError "values"

/-- Model of `BustimeAPI.parseresponse` in the `json` format: substring
checks on the raw text select between the invalid-response error, the
error handler, and returning the parsed tree under the wrapper key. -/
def parseresponse (resp : XResp) : Except PyErr JValue :=
  let raw := renderResp resp
  if !inSub RESPONSE_TOKEN.data raw then
    .error (.bustimeError ("The Bustime API returned an invalid response: " ++ ⟨raw⟩))
  else if inSub ERROR_TOKEN.data raw then
    .error (errorhandle resp)
  else
    pyIndexStr (xmldictTop resp) RESPONSE_TOKEN

/-- The call-site flattening rule applied by `vehicles` (and, for
`pid`/`stpid`/`vid`, by the other query methods) before serialization:
a list-like value becomes its comma-join, everything else is passed
through. -/
def flattenParam (v : PyVal) : PyVal :=
  if listlike v then .pystr (commaJoin v.list) else v

/-- Does an exception carry the distinguished rate-limit type? -/
def isAPILimit : PyErr → Bool
  | .apiLimitExceeded _ => true
  | _ => false

/-- A record that is a dict without an `sb` key (the shape of every
individual bulletin record). -/
def lacksSb : JValue → Bool
  | .jobj kvs => (jLookup "sb" kvs).isNone
  | _ => false

/-- The normalized vehicle record of the round-trip claim: no `dly`
field, exact decimal position, wire-format timestamp. -/
def c6rec : JValue := .jobj [("vid", .jstr "5666"), ("tmstmp", .jstr "20140925 22:46:33"),
  ("lat", .jstr "40.448"), ("lon", .jstr "-80.162"), ("hdg", .jstr "164"),
  ("pid", .jstr "2250"), ("rt", .jstr "28X"), ("des", .jstr "Oakland"),
  ("pdist", .jstr "49113"), ("spd", .jstr "16")]

/-- A well-formed normalized prediction record, used as the bare
(single-record) value of a `prd` field. -/
def c1prd : JValue := .jobj [("tmstmp", .jstr "20140925 22:46:33"), ("typ", .jstr "A"),
  ("stpnm", .jstr "Forbes Ave and Murray Ave"), ("stpid", .jstr "4123"),
  ("vid", .jstr "5666"), ("dstp", .jstr "1000"), ("rt", .jstr "28X"),
  ("rtdir", .jstr "INBOUND"), ("des", .jstr "Oakland"), ("prdtm", .jstr "20140925 22:50:00")]

/-- The `Prediction` that `Prediction.fromapi` constructs from `c1prd`. -/
def c1pred : PredObj :=
  ⟨⟨⟨2014, 9, 25, 22, 50, 0⟩, "US/Eastern"⟩, true, false,
   ⟨⟨2014, 9, 25, 22, 46, 33⟩, "US/Eastern"⟩,
   ⟨"4123", "Forbes Ave and Murray Ave", 1000⟩, "28X", "Oakland", "INBOUND", "5666"⟩

/-- A well-formed normalized vehicle record, used as the bare value of
a `vehicle` field. -/
def c1vehrec : JValue := .jobj [("vid", .jstr "5666"), ("tmstmp", .jstr "20140925 22:46:33"),
  ("lat", .jstr "40.448"), ("lon", .jstr "-80.162"), ("hdg", .jstr "164"),
  ("pid", .jstr "2250"), ("rt", .jstr "28X"), ("des", .jstr "Oakland"),
  ("pdist", .jstr "49113"), ("spd", .jstr "16")]

/-- The `Bus` that `Route.busses` yields from `c1vehrec` (with `route`
rebound to the owning route object). -/
def c1bus : BusObj :=
  ⟨"5666", ⟨⟨2014, 9, 25, 22, 46, 33⟩, "US/Eastern"⟩, (⟨40448, 3⟩, ⟨-80162, 3⟩), 164,
   "2250", "49113", .byObject "28X" "AIRPORT FLYER" "#b22222", "Oakland", "16", .pbool false⟩

/-- An envelope reporting two simultaneous errors, the first of which
is the rate-limit message. -/
def c2resp : XResp := ⟨"bustime-response",
  [⟨"error", [⟨"msg", "Transaction limit for current day has been exceeded."⟩]⟩,
   ⟨"error", [⟨"msg", "No data found for parameter"⟩]⟩]⟩

/-- The rate-limit message alone, for the single-error envelope. -/
def c2wmsg : String := "Transaction limit for current day has been exceeded."

/-- A response with zero `error` children whose business data happens
to contain the text `error`. -/
def c4resp : XResp := ⟨"bustime-response", [⟨"vehicle", [⟨"des", "routing error ahead"⟩]⟩]⟩

/-- A response with zero `error` children and no occurrence of the
text `error` anywhere. -/
def c4wresp : XResp := ⟨"bustime-response", [⟨"route", [⟨"rt", "28X"⟩, ⟨"rtnm", "AIRPORT FLYER"⟩]⟩]⟩

/-- The URL built by `geopatterns` when its `rt` parameter is passed as
a list. -/
def c5url : Except PyErr String :=
  geopatterns "BOGUSAPIKEY" "en_US" "s" (.pylist ["28X", "61C"]) .pynone

/-- One fetched route record. -/
def c9rec : JValue :=
  .jobj [("rt", .jstr "28X"), ("rtnm", .jstr "AIRPORT FLYER"), ("rtclr", .jstr "#b22222")]

/-- The registry `update_list` builds from `[c9rec]`. -/
def c9reg : List (String × RouteObj) := [("28X", ⟨"28X", "AIRPORT FLYER", "#b22222"⟩)]

/-- An individual bulletin record (no nested `sb` key). -/
def c10rec : JValue := .jobj [("nm", .jstr "123"), ("sbj", .jstr "Detour"),
  ("dtl", .jstr "Route 28X is detoured."), ("brf", .jstr "28X detour"),
  ("prty", .jstr "low")]

/-- A bulletins response whose `sb` field holds one bulletin record. -/
def c10resp : JValue := .jobj [("sb", .jarr [c10rec])]

theorem isPrefixOf_append_self (n rest : List Char) : n.isPrefixOf (n ++ rest) = true := by
  induction n with
  | nil => simp [List.isPrefixOf]
  | cons d t ih => simp [List.isPrefixOf, ih]

theorem inSub_cons_append (n rest : List Char) (c : Char) :
    inSub n (c :: (n ++ rest)) = true := by
  cases n with
  | nil => simp [inSub, List.isPrefixOf]
  | cons d t =>
    show ((d :: t).isPrefixOf (c :: (d :: t) ++ rest) || inSub (d :: t) ((d :: t) ++ rest)) = true
    have h2 : inSub (d :: t) ((d :: t) ++ rest) = true := by
      show ((d :: t).isPrefixOf ((d :: t) ++ rest) || _) = true
      rw [isPrefixOf_append_self]
      simp
    rw [h2]
    simp

/-- C1: of the three container-of-records call sites, `Route.busses`
and `Stop.predictions` normalize cardinality (one entity from a bare
record, N entities in order from a list of N), but `Bus.predictions`
iterates a bare `prd` record directly: Python then iterates the dict's
keys and `Prediction.fromapi` receives a key string, raising
`TypeError` instead of yielding the single prediction the spec's
uniform rule requires.  The list case of `Bus.predictions` does yield N
entities in order. -/
theorem c1_bus_predictions_bare_record_raises :
    Bus_predictions_consume c1prd = .error (.typeError "string indices must be integers") ∧
    Bus_predictions_consume (.jarr [c1prd, c1prd]) = .ok [c1pred, c1pred] ∧
    Stop_predictions_consume c1prd = .ok [c1pred] ∧
    Stop_predictions_consume (.jarr [c1prd, c1prd]) = .ok [c1pred, c1pred] ∧
    Route_busses_consume "28X" "AIRPORT FLYER" "#b22222" c1vehrec = .ok [c1bus] ∧
    Route_busses_consume "28X" "AIRPORT FLYER" "#b22222" (.jarr [c1vehrec, c1vehrec]) =
      .ok [c1bus, c1bus] := by
  refine ⟨rfl, rfl, rfl, rfl, rfl, rfl⟩

/-- C2 (counterexample): an envelope reporting two simultaneous errors,
one of whose messages contains the rate-limit phrase, is routed to the
multi-error branch of `errorhandle`, which never runs the rate-limit
check: the generic `BustimeError` with the concatenated messages is
raised, not `APILimitExceeded`. -/
theorem c2_multi_error_rate_limit_not_detected :
    errorhandle c2resp = .bustimeError
      "API returned: msg: Transaction limit for current day has been exceeded., msg: No data found for parameter" ∧
    isAPILimit (errorhandle c2resp) = false := by
  exact ⟨rfl, rfl⟩

/-- C2 (amended): when the parsed envelope holds a single `error` child
whose `msg` text contains the rate-limit phrase (case-insensitively),
`errorhandle` raises the distinct `APILimitExceeded` error; with
multiple simultaneous errors the generic error is raised instead. -/
theorem c2_single_error_rate_limit_detected (m : String) (hne : m ≠ "")
    (hph : inSub tlPhrase.data (lowerChars m) = true) :
    errorhandle ⟨"bustime-response", [⟨"error", [⟨"msg", m⟩]⟩]⟩ =
      .apiLimitExceeded "This API key has used up its daily quota of calls." := by
  unfold errorhandle xmldictTop respInner recVal
  simp [groupPairs, dedupFirst, leafVal, hne, pyIndexStr, jLookup, RESPONSE_TOKEN,
    ERROR_TOKEN, overlimitCheck, hph]

theorem c2_single_error_rate_limit_detected_witness :
    (c2wmsg ≠ "" ∧ inSub tlPhrase.data (lowerChars c2wmsg) = true) ∧
    errorhandle ⟨"bustime-response", [⟨"error", [⟨"msg", c2wmsg⟩]⟩]⟩ =
      .apiLimitExceeded "This API key has used up its daily quota of calls." :=
  ⟨⟨by decide, by decide⟩,
   c2_single_error_rate_limit_detected c2wmsg (by decide) (by decide)⟩

/-- C3: `vehicles` and `predictions` raise a local `ValueError` both on
mutually exclusive parameters and when all required parameters are
omitted, and `geopatterns` raises on the mutually exclusive pair; but
`geopatterns()` with neither `rt` nor `pid` raises nothing — the source
constructs the `ValueError` without the `raise` keyword, so the request
URL is built (with no local parameters) and the network call proceeds. -/
theorem c3_geopatterns_missing_raise :
    geopatterns "BOGUSAPIKEY" "en_US" "s" .pynone .pynone =
      .ok (rGeoBase ++ "?key=BOGUSAPIKEY&tmres=s&localestring=en_US&") ∧
    geopatterns "BOGUSAPIKEY" "en_US" "s" (.pystr "28X") (.pystr "2250") =
      .error (.valueError "The `rt` and `pid` parameters cannot be specified simultaneously.") ∧
    vehicles "BOGUSAPIKEY" "en_US" "s" (.pystr "5666") (.pystr "28X") =
      .error (.valueError "The `vid` and `route` parameters cannot be specified simultaneously.") ∧
    vehicles "BOGUSAPIKEY" "en_US" "s" .pynone .pynone =
      .error (.valueError "You must specify either the `vid` or `rt` parameter.") ∧
    predictions "BOGUSAPIKEY" "en_US" "s" (.pystr "4123") (.pystr "") (.pystr "5666") (.pystr "") =
      .error (.valueError "These parameters cannot be specified simultaneously.") ∧
    predictions "BOGUSAPIKEY" "en_US" "s" (.pystr "") (.pystr "") (.pystr "") (.pystr "") =
      .error (.valueError "You must specify a parameter.") := by
  refine ⟨rfl, rfl, rfl, rfl, rfl, rfl⟩

/-- C4 (counterexample): a response with the wrapper token, zero
`error` children, but the text `error` inside a business-data child is
handed to `errorhandle` by `parseresponse`'s substring check, and the
missing `error` key then raises `KeyError` — the normalized tree is not
returned. -/
theorem c4_substring_error_check_raises_without_error_child :
    parseresponse c4resp = .error (.keyError "error") ∧
    c4resp.recs.all (fun r => r.tag != "error") = true := by
  exact ⟨rfl, by decide⟩

/-- C4 (amended): for every response whose wrapper element is
`bustime-response`, with zero `error` children, and in whose raw text
the substring `error` does not occur at all, `parseresponse` returns
the normalized record tree under the wrapper element and does not
raise. -/
theorem c4_parse_ok_when_error_text_absent (resp : XResp)
    (hroot : resp.roottag = "bustime-response")
    (_herr0 : resp.recs.all (fun r => r.tag != "error") = true)
    (hsub : inSub ERROR_TOKEN.data (renderResp resp) = false) :
    parseresponse resp = .ok (respInner resp) := by
  have hresp : inSub RESPONSE_TOKEN.data (renderResp resp) = true := by
    unfold renderResp renderElem
    rw [hroot]
    exact inSub_cons_append _ _ _
  unfold parseresponse
  simp only [hresp, hsub, Bool.not_true, Bool.false_eq_true, if_false, if_true]
  simp [pyIndexStr, xmldictTop, jLookup, hroot, RESPONSE_TOKEN]

theorem c4_parse_ok_when_error_text_absent_witness :
    (c4wresp.roottag = "bustime-response" ∧
     c4wresp.recs.all (fun r => r.tag != "error") = true ∧
     inSub ERROR_TOKEN.data (renderResp c4wresp) = false) ∧
    parseresponse c4wresp = .ok (respInner c4wresp) :=
  ⟨⟨rfl, by decide, by decide⟩,
   c4_parse_ok_when_error_text_absent c4wresp rfl (by decide) (by decide)⟩

/-- C5 (counterexample): `geopatterns` does not flatten a list-like
`rt` before serialization, so the query string carries the Python
`str()` of the list (bracketed, quoted) and not the comma-joined form
the claim requires for every endpoint/parameter combination. -/
theorem c5_geopatterns_route_list_not_flattened :
    c5url = .ok (rGeoBase ++ "?key=BOGUSAPIKEY&tmres=s&localestring=en_US&rt=" ++
      pyStr (.pylist ["28X", "61C"])) ∧
    (c5url.toOption.map fun u => inSub ("rt=" ++ commaJoin ["28X", "61C"]).data u.data) =
      some false := by
  exact ⟨rfl, rfl⟩

/-- C5 (amended): for every valid `vehicles` call, the URL is the
endpoint applied to the call-site-flattened parameters, and that
code-path serialization of the local parameters coincides with the
spec's rule (omit `None` values, flatten list-likes to comma-joins);
the rule holds for the parameters the API documents as multi-ID, but
not for every parameter of every endpoint (see the counterexample). -/
theorem c5_vehicles_serialization_matches_spec_rule
    (key locale tmres : String) (vid rt : PyVal)
    (hx : (pyTruthy vid && pyTruthy rt) = false)
    (hs : (pyTruthy vid || pyTruthy rt) = true) :
    vehicles key locale tmres vid rt =
      .ok (endpoint vehiclesBase key locale tmres
        [("vid", flattenParam vid), ("rt", flattenParam rt)]) ∧
    queryjoin [("vid", flattenParam vid), ("rt", flattenParam rt)] =
      specSerialize [("vid", vid), ("rt", rt)] := by
  constructor
  · unfold vehicles
    simp only [hx, hs, Bool.false_eq_true, if_false, Bool.not_true, if_true]
    rfl
  · cases vid <;> cases rt <;> rfl

theorem c5_vehicles_serialization_matches_spec_rule_witness :
    ((pyTruthy (.pylist ["5666", "7000"]) && pyTruthy .pynone) = false ∧
     (pyTruthy (.pylist ["5666", "7000"]) || pyTruthy .pynone) = true) ∧
    (vehicles "BOGUSAPIKEY" "en_US" "s" (.pylist ["5666", "7000"]) .pynone =
      .ok (endpoint vehiclesBase "BOGUSAPIKEY" "en_US" "s"
        [("vid", flattenParam (.pylist ["5666", "7000"])), ("rt", flattenParam .pynone)]) ∧
     queryjoin [("vid", flattenParam (.pylist ["5666", "7000"])), ("rt", flattenParam .pynone)] =
      specSerialize [("vid", .pylist ["5666", "7000"]), ("rt", .pynone)]) :=
  ⟨⟨by decide, by decide⟩,
   c5_vehicles_serialization_matches_spec_rule "BOGUSAPIKEY" "en_US" "s"
     (.pylist ["5666", "7000"]) .pynone (by decide) (by decide)⟩

/-- C6: constructing a `Bus` from the normalized record with no `dly`
field yields `delayed = False`, a location equal to the `lat`/`lon`
pair converted by the float conversion, and a timestamp parsed from
`20140925 22:46:33`, localized to the fixed `US/Eastern` zone, and
rendering as `2014-09-25 22:46:33`. -/
theorem c6_bus_roundtrip :
    (Bus_fromapi c6rec).map (fun b =>
        (b.delayed, b.location, renderDateTime b.timeupdated.naive, b.timeupdated.zone)) =
      .ok (.pbool false, (⟨40448, 3⟩, ⟨-80162, 3⟩), "2014-09-25 22:46:33", "US/Eastern") ∧
    pyFloatOfString "40.448" = .ok ⟨40448, 3⟩ ∧
    pyFloatOfString "-80.162" = .ok ⟨-80162, 3⟩ := by
  refine ⟨rfl, rfl, rfl⟩

/-- C7: `Bus.update` is atomic: the raised exception, if any, is
exactly the one the refetch pipeline produces, and the object's state
afterwards is unchanged when the pipeline raises and is the freshly
constructed record wholesale when it succeeds. -/
theorem c7_bus_update_atomic (self : BusObj) (fetchResp : Except PyErr JValue) :
    (Bus_update self fetchResp).1 = (Bus_refetch fetchResp).map (fun _ => ()) ∧
    (Bus_update self fetchResp).2 =
      (match Bus_refetch fetchResp with | .error _ => self | .ok b => b) := by
  cases h : Bus_refetch fetchResp <;> simp [Bus_update, h, Except.map]

/-- C8: accessing `Prediction.stop` twice returns the identical cached
`Stop` instance both times (the second result is the first, which is
exactly the instance cached on the prediction), and the second access
issues no API request. -/
theorem c8_prediction_stop_cached (p : PredInst) (nextAlloc requests : Nat) :
    (Prediction_stop (Prediction_stop p nextAlloc requests).inst
        (Prediction_stop p nextAlloc requests).nextAlloc
        (Prediction_stop p nextAlloc requests).requests).stop =
      (Prediction_stop p nextAlloc requests).stop ∧
    (Prediction_stop p nextAlloc requests).inst.stopobj =
      some (Prediction_stop p nextAlloc requests).stop ∧
    (Prediction_stop (Prediction_stop p nextAlloc requests).inst
        (Prediction_stop p nextAlloc requests).nextAlloc
        (Prediction_stop p nextAlloc requests).requests).requests =
      (Prediction_stop p nextAlloc requests).requests := by
  cases h : p.stopobj <;> simp [Prediction_stop, h]

/-- C9 (counterexample): when the whole-list fetch yields an empty
route list the registry stays falsy, so two `Route.get` calls with no
intervening reset issue two whole-list fetches, contradicting the
claimed "at most one". -/
theorem c9_empty_route_list_refetches :
    (Route_get [] [] "28X").fetches +
      (Route_get (Route_get [] [] "28X").registry [] "28X").fetches = 2 := by
  rfl

/-- C9 (amended): provided the fetched route list parses to a
non-empty registry, any two `Route.get` calls (same or different
designators, any starting registry, no intervening reset) issue at
most one whole-list fetch. -/
theorem c9_at_most_one_fetch_when_nonempty (registry : List (String × RouteObj))
    (apiRoutes : List JValue) (rt1 rt2 : String) (m : List (String × RouteObj))
    (hok : Route_update_list apiRoutes = .ok m) (hne : m ≠ []) :
    (Route_get registry apiRoutes rt1).fetches +
      (Route_get (Route_get registry apiRoutes rt1).registry apiRoutes rt2).fetches ≤ 1 := by
  by_cases hreg : registry.isEmpty
  · have hm : m.isEmpty = false := by
      cases m with
      | nil => exact absurd rfl hne
      | cons a t => rfl
    unfold Route_get
    rw [hok]
    simp only [hreg, if_true]
    cases hl : regLookup rt1 m <;>
      simp only [hl] <;> simp [hm] <;>
      cases hl2 : regLookup rt2 m <;> simp [hl2]
  · unfold Route_get
    simp only [hreg, if_false]
    cases hl : regLookup rt1 registry <;>
      simp only [hl] <;> simp [hreg] <;>
      cases hl2 : regLookup rt2 registry <;> simp [hl2]

theorem c9_at_most_one_fetch_when_nonempty_witness :
    (Route_update_list [c9rec] = .ok c9reg ∧ c9reg ≠ []) ∧
    (Route_get [] [c9rec] "28X").fetches +
      (Route_get (Route_get [] [c9rec] "28X").registry [c9rec] "28X").fetches ≤ 1 :=
  ⟨⟨rfl, by decide⟩,
   c9_at_most_one_fetch_when_nonempty [] [c9rec] "28X" "28X" c9reg rfl (by decide)⟩

/-- C10: for every truthy bulletins response whose `sb` field is a
non-empty list of records, `Route.bulletins` and `Stop.bulletins` yield
one unconsumed `Bulletin.fromapi` generator per record, and consuming
any of those generators raises `KeyError` for each record lacking a
nested `sb` key (which individual bulletin records lack). -/
theorem c10_bulletins_nested_sb_keyerror (resp : JValue) (sbrecs : List JValue)
    (htr : jTruthy resp = true)
    (hsb : pyIndexStr resp "sb" = .ok (.jarr sbrecs))
    (_hne : sbrecs ≠ [])
    (hlack : sbrecs.all lacksSb = true) :
    Route_bulletins resp = .ok sbrecs ∧ Stop_bulletins resp = .ok sbrecs ∧
      ∀ r ∈ sbrecs, Bulletin_fromapi_consume r = .error (.keyError "sb") := by
  refine ⟨?_, ?_, ?_⟩
  · simp only [Route_bulletins, htr, if_true, hsb]
    rfl
  · simp only [Stop_bulletins, htr, if_true, hsb]
    rfl
  · intro r hr
    have hl : lacksSb r = true := by
      rw [List.all_eq_true] at hlack
      exact hlack r hr
    cases r with
    | jobj kvs =>
      have : jLookup "sb" kvs = none := by
        simpa [lacksSb, Option.isNone_iff_eq_none] using hl
      simp only [Bulletin_fromapi_consume, pyIndexStr, this]
      rfl
    | jnull => simp [lacksSb] at hl
    | jstr s => simp [lacksSb] at hl
    | jarr xs => simp [lacksSb] at hl

theorem c10_bulletins_nested_sb_keyerror_witness :
    (jTruthy c10resp = true ∧ pyIndexStr c10resp "sb" = .ok (.jarr [c10rec]) ∧
     ([c10rec] : List JValue) ≠ [] ∧ ([c10rec].all lacksSb) = true) ∧
    (Route_bulletins c10resp = .ok [c10rec] ∧ Stop_bulletins c10resp = .ok [c10rec] ∧
     Bulletin_fromapi_consume c10rec = .error (.keyError "sb")) :=
  ⟨⟨rfl, rfl, by simp, rfl⟩,
   by
    have h := c10_bulletins_nested_sb_keyerror c10resp [c10rec] rfl rfl (by simp) rfl
    exact ⟨h.1, h.2.1, h.2.2 c10rec (List.mem_singleton.mpr rfl)⟩⟩

end Pghbustime
